import Mathlib

/-!
Verification of the auth-fastapi service (src/auth/router.py, src/main.py).

The five HTTP handlers (register, login, logout, edit_profile, test_auth)
are embedded from src/src/auth/router.py.  The collaborators they call
(src/auth/utils.py: get_user_by_email, create_user, verify_password,
create_access_token, get_current_user, edit_user) are not part of the
source tree, so they are modelled from the specification's description of
the Credential Store, Password Hasher and Token Issuer/Verifier.
-/

set_option maxRecDepth 2000

namespace AuthFastapi

/-- A row of the Credential Store: {id, email, username, password_hash}. -/
structure User where
  id : Nat
  email : String
  username : String
  password_hash : String
deriving DecidableEq, Repr

/-- The Credential Store: a relational table of users. -/
abbrev Store := List User

/-- Request body of POST /register (schemas.UserCreate). -/
structure UserCreate where
  email : String
  password : String
  username : String
deriving DecidableEq, Repr

/-- Request body of POST /login (schemas.UserLogin). -/
structure UserLogin where
  email : String
  password : String
deriving DecidableEq, Repr

/-- Request body of POST /edit-profile (schemas.UserEdit): the confirmation
password and the new username. -/
structure UserEdit where
  password : String
  username : String
deriving DecidableEq, Repr

/-- Read-only snapshot of a user handed to handlers (schemas.UserRead). -/
structure UserRead where
  id : Nat
  email : String
  username : String
deriving DecidableEq, Repr

/-- Modelled from the spec: the Password Hasher's one-way hash function
(src/auth/utils.py is absent from the source tree).  Any injective
function models it; verification compares a fresh hash of the plaintext
with the stored hash. -/
def hash_password (p : String) : String :=
  "$hash$" ++ p

/-- Modelled from the spec: the session token, "an opaque signed string
with embedded claims {subject = email, expiry}". -/
structure Token where
  subject : String
  expiry : Nat
  sig : Nat
deriving DecidableEq, Repr

/-- Modelled from the spec: the Token Issuer's signature over the claims.
Any concrete function models the signature scheme. -/
def token_sig (subject : String) (expiry : Nat) : Nat :=
  subject.data.foldl (fun a c => a * 131 + c.toNat) 7 + expiry

/-- Modelled from the spec: create_access_token issues a signed token with
subject = email and expiry one hour (3600 s) from now. -/
def create_access_token (email : String) (now : Nat) : Token :=
  { subject := email, expiry := now + 3600, sig := token_sig email (now + 3600) }

/-- Modelled from the spec: token verification "must check signature and
expiry". -/
def token_valid (t : Token) (now : Nat) : Bool :=
  t.sig == token_sig t.subject t.expiry && decide (now < t.expiry)

/-- Modelled from the spec: get_user_by_email, the store's lookup of a user
by its unique email. -/
def get_user_by_email (store : Store) (email : String) : Option User :=
  store.find? (fun u => u.email == email)

/-- Modelled from the spec: verify_password looks the user up by email and
verifies the supplied plaintext against the stored hash; a missing user
never verifies. -/
def verify_password (store : Store) (email : String) (password : String) : Bool :=
  match get_user_by_email store email with
  | none => false
  | some u => hash_password password == u.password_hash

/-- Modelled from the spec: a fresh id for a new row, unique across the
store (one more than the largest id present). -/
def fresh_id (store : Store) : Nat :=
  store.foldr (fun u m => max u.id m) 0 + 1

/-- Modelled from the spec: create_user hashes the password and inserts
exactly one new User row. -/
def create_user (store : Store) (u : UserCreate) : Store :=
  store ++ [{ id := fresh_id store, email := u.email, username := u.username,
              password_hash := hash_password u.password }]

/-- Modelled from the spec: edit_user updates the username field of the
identified user's row; every other field and row is untouched. -/
def edit_user (store : Store) (u : UserRead) (nd : UserEdit) : Store :=
  store.map (fun usr =>
    if usr.id == u.id then
      { id := usr.id, email := usr.email, username := nd.username,
        password_hash := usr.password_hash }
    else usr)

/-- The read-only snapshot of a stored row. -/
def user_to_read (u : User) : UserRead :=
  { id := u.id, email := u.email, username := u.username }

/-- Modelled from the spec: get_current_user resolves the jwt_token cookie:
absent or invalid (bad signature or expired) token yields no user,
otherwise the token's subject email is looked up in the store. -/
def get_current_user (store : Store) (tok : Option Token) (now : Nat) : Option UserRead :=
  match tok with
  | none => none
  | some t =>
    if token_valid t now then (get_user_by_email store t.subject).map user_to_read
    else none

/-- The data field of a response envelope. -/
inductive RespData where
  | null : RespData
  | token (jwt : Token) (token_type : String) : RespData
  | user_data (id : Nat) (email : String) (username : String) : RespData
  | err_str (s : String) : RespData
deriving DecidableEq, Repr

/-- The cookie instruction a handler attaches to its JSONResponse. -/
inductive CookieAction where
  | keep : CookieAction
  | set (key : String) (value : Token) (max_age : Nat) : CookieAction
  | delete (key : String) : CookieAction
deriving DecidableEq, Repr

/-- A handler's JSONResponse: HTTP status code, the JSON envelope
{status, data, detail}, and the cookie action. -/
structure Response where
  status_code : Nat
  status : String
  data : RespData
  detail : Option String
  cookie : CookieAction
deriving DecidableEq, Repr

/-- The JSONResponse built in every `except HTTPException` block of
router.py: {status: error, data: None, detail: error.detail} with the
exception's status code. -/
def http_error (code : Nat) (detail : String) : Response :=
  { status_code := code, status := "error", data := RespData.null,
    detail := some detail, cookie := CookieAction.keep }

/-- The JSONResponse built in every `except Exception` block of router.py:
status 500, data = str(error), detail = Server error. -/
def server_error (msg : String) : Response :=
  { status_code := 500, status := "error", data := RespData.err_str msg,
    detail := some "Server error", cookie := CookieAction.keep }

/-- The 200 success JSONResponse of register/login/edit_profile:
data = {jwt_token, token_type: jwt_token}, plus
set_cookie(key=jwt_token, value=jwt_token, max_age=3600). -/
def success_token (tok : Token) : Response :=
  { status_code := 200, status := "success",
    data := RespData.token tok "jwt_token", detail := none,
    cookie := CookieAction.set "jwt_token" tok 3600 }

/-- POST /register (router.py, register).  `fault` injects an unexpected
store/hash/token failure, modelling the `except Exception` path; per the
spec no partial write occurs on that path. -/
def register (fault : Option String) (store : Store) (user : UserCreate)
    (now : Nat) : Response × Store :=
  match fault with
  | some msg => (server_error msg, store)
  | none =>
    match get_user_by_email store user.email with
    | some _ => (http_error 409 "User already registered", store)
    | none =>
      let store1 := create_user store user
      let jwt_token := create_access_token user.email now
      (success_token jwt_token, store1)

/-- POST /login (router.py, login).  Reads the store, never writes it. -/
def login (fault : Option String) (store : Store) (user : UserLogin)
    (now : Nat) : Response :=
  match fault with
  | some msg => server_error msg
  | none =>
    if verify_password store user.email user.password then
      success_token (create_access_token user.email now)
    else
      http_error 401 "Invalid credentials"

/-- POST /logout (router.py, logout).  The try-block builds a constant
success body and deletes the jwt_token cookie; it calls no store, hash or
token operation, so there is no failure to inject and the handler takes no
session argument at all. -/
def logout : Response :=
  { status_code := 200, status := "success", data := RespData.null,
    detail := none, cookie := CookieAction.delete "jwt_token" }

/-- POST /edit-profile (router.py, edit_profile).  `user` is the result of
the get_current_user dependency; `fault` models the `except Exception`
path. -/
def edit_profile (fault : Option String) (store : Store) (new_user_data : UserEdit)
    (user : Option UserRead) (now : Nat) : Response × Store :=
  match fault with
  | some msg => (server_error msg, store)
  | none =>
    match user with
    | none => (http_error 401 "Unauthorized", store)
    | some u =>
      if verify_password store u.email new_user_data.password then
        let store1 := edit_user store u new_user_data
        let jwt_token := create_access_token u.email now
        (success_token jwt_token, store1)
      else
        (http_error 400 "Password is incorrect", store)

/-- GET /test-auth (router.py, test_auth).  `user` is the result of the
get_current_user dependency; the try-block only reshapes it, calling no
fallible collaborator. -/
def test_auth (user : Option UserRead) : Response :=
  match user with
  | none => http_error 401 "Unauthorized"
  | some u =>
    { status_code := 200, status := "success",
      data := RespData.user_data u.id u.email u.username, detail := none,
      cookie := CookieAction.keep }

/-- Does the data field hold a stringified exception? -/
def data_is_err_str : RespData → Bool
  | RespData.err_str _ => true
  | _ => false

/-- The cross-cutting response envelope of router.py (spec section 4.6):
status is success or error; success means HTTP 200 with empty detail;
domain errors 401/409/400 have empty data and a human-readable detail;
500 carries the stringified error in data and detail Server error. -/
def envelope_ok (r : Response) : Prop :=
  (r.status = "success" ∨ r.status = "error") ∧
  (r.status = "success" → r.status_code = 200 ∧ r.detail = none) ∧
  ((r.status_code = 401 ∨ r.status_code = 409 ∨ r.status_code = 400) →
    r.status = "error" ∧ r.data = RespData.null ∧ r.detail.isSome = true) ∧
  (r.status_code = 500 →
    r.status = "error" ∧ data_is_err_str r.data = true ∧
    r.detail = some "Server error")

/-- A demonstration store row used by the concrete witnesses below. -/
def demo_user : User :=
  { id := 1, email := "a@x.com", username := "u1",
    password_hash := hash_password "p1" }

/-- A one-row demonstration store. -/
def demo_store : Store := [demo_user]

/-- The read snapshot of the demonstration row. -/
def demo_read : UserRead := { id := 1, email := "a@x.com", username := "u1" }

lemma register_shape (fault : Option String) (store : Store) (user : UserCreate)
    (now : Nat) :
    (∃ msg, register fault store user now = (server_error msg, store)) ∨
    register fault store user now =
      (http_error 409 "User already registered", store) ∨
    register fault store user now =
      (success_token (create_access_token user.email now), create_user store user) := by
  unfold register
  cases fault with
  | some msg => exact Or.inl ⟨msg, rfl⟩
  | none =>
    cases hfind : get_user_by_email store user.email with
    | some u => exact Or.inr (Or.inl rfl)
    | none => exact Or.inr (Or.inr rfl)

lemma login_shape (fault : Option String) (store : Store) (user : UserLogin)
    (now : Nat) :
    (∃ msg, login fault store user now = server_error msg) ∨
    login fault store user now = http_error 401 "Invalid credentials" ∨
    login fault store user now = success_token (create_access_token user.email now) := by
  unfold login
  cases fault with
  | some msg => exact Or.inl ⟨msg, rfl⟩
  | none =>
    cases hv : verify_password store user.email user.password with
    | true => simp [hv]
    | false => simp [hv]

lemma edit_profile_shape (fault : Option String) (store : Store) (nd : UserEdit)
    (user : Option UserRead) (now : Nat) :
    (∃ msg, edit_profile fault store nd user now = (server_error msg, store)) ∨
    edit_profile fault store nd user now = (http_error 401 "Unauthorized", store) ∨
    edit_profile fault store nd user now =
      (http_error 400 "Password is incorrect", store) ∨
    (∃ u, user = some u ∧
      edit_profile fault store nd user now =
        (success_token (create_access_token u.email now), edit_user store u nd)) := by
  unfold edit_profile
  cases fault with
  | some msg => exact Or.inl ⟨msg, rfl⟩
  | none =>
    cases user with
    | none => exact Or.inr (Or.inl rfl)
    | some u =>
      cases hv : verify_password store u.email nd.password with
      | true => exact Or.inr (Or.inr (Or.inr ⟨u, rfl, by simp [hv]⟩))
      | false => exact Or.inr (Or.inr (Or.inl (by simp [hv])))

lemma envelope_ok_http_error (code : Nat) (d : String)
    (h : code = 401 ∨ code = 409 ∨ code = 400) :
    envelope_ok (http_error code d) := by
  refine ⟨Or.inr rfl, ?_, ?_, ?_⟩
  · intro hs; exact absurd hs (by simp [http_error])
  · intro _; exact ⟨rfl, rfl, rfl⟩
  · intro h500
    rcases h with h | h | h <;> simp [http_error, h] at h500

lemma envelope_ok_server_error (msg : String) : envelope_ok (server_error msg) := by
  refine ⟨Or.inr rfl, ?_, ?_, ?_⟩
  · intro hs; exact absurd hs (by simp [server_error])
  · intro h; simp [server_error] at h
  · intro _; exact ⟨rfl, rfl, rfl⟩

lemma envelope_ok_success_token (tok : Token) : envelope_ok (success_token tok) := by
  refine ⟨Or.inl rfl, fun _ => ⟨rfl, rfl⟩, ?_, ?_⟩
  · intro h; rcases h with h | h | h <;> simp [success_token] at h
  · intro h; simp [success_token] at h

/-- C1: a register request whose email is already in the Credential Store
returns the error envelope with HTTP 409 (conflict, detail
"User already registered") and the store is returned unchanged: no User
row is inserted on this path. -/
theorem register_duplicate_email_conflict (store : Store) (user : UserCreate)
    (now : Nat) (h : (get_user_by_email store user.email).isSome = true) :
    register none store user now =
      (http_error 409 "User already registered", store) := by
  unfold register
  cases hfind : get_user_by_email store user.email with
  | none => rw [hfind] at h; simp at h
  | some u => rfl

/-- C1 witness: registering a@x.com a second time against the one-row demo
store hits the 409 path and leaves the store as it was. -/
theorem register_duplicate_email_conflict_witness :
    register none demo_store { email := "a@x.com", password := "p2", username := "u2" } 0 =
      (http_error 409 "User already registered", demo_store) :=
  register_duplicate_email_conflict demo_store
    { email := "a@x.com", password := "p2", username := "u2" } 0 (by decide)

/-- C3: when login's credential check fails — because the email is unknown
or because the password does not verify — the response is HTTP 401 with
the error envelope, and any two failing runs produce literally identical
responses, so the response never reveals whether the email exists. -/
theorem login_failure_uniform_unauthorized (store : Store)
    (u1 u2 : UserLogin) (now1 now2 : Nat)
    (h1 : verify_password store u1.email u1.password = false)
    (h2 : verify_password store u2.email u2.password = false) :
    login none store u1 now1 = login none store u2 now2 ∧
    login none store u1 now1 = http_error 401 "Invalid credentials" := by
  unfold login
  rw [h1, h2]
  exact ⟨rfl, rfl⟩

/-- C3 witness: an unknown-email run and a wrong-password run against the
demo store yield the same 401 response. -/
theorem login_failure_uniform_unauthorized_witness :
    login none demo_store { email := "b@x.com", password := "p1" } 0 =
      login none demo_store { email := "a@x.com", password := "wrong" } 1 ∧
    login none demo_store { email := "b@x.com", password := "p1" } 0 =
      http_error 401 "Invalid credentials" :=
  login_failure_uniform_unauthorized demo_store
    { email := "b@x.com", password := "p1" }
    { email := "a@x.com", password := "wrong" } 0 1 (by decide) (by decide)

/-- C4: an authenticated edit-profile request whose confirmation password
does not verify returns HTTP 400 and the store — every field of every
User row, the username included — is returned unchanged: the update write
is not performed. -/
theorem edit_profile_wrong_password_no_write (store : Store) (nd : UserEdit)
    (u : UserRead) (now : Nat)
    (h : verify_password store u.email nd.password = false) :
    edit_profile none store nd (some u) now =
      (http_error 400 "Password is incorrect", store) := by
  simp [edit_profile, h]

/-- C4 witness: an edit with a wrong confirmation password against the demo
store returns 400 and the untouched store. -/
theorem edit_profile_wrong_password_no_write_witness :
    edit_profile none demo_store { password := "nope", username := "u2" }
        (some demo_read) 0 =
      (http_error 400 "Password is incorrect", demo_store) :=
  edit_profile_wrong_password_no_write demo_store
    { password := "nope", username := "u2" } demo_read 0 (by decide)

/-- C6: a register request for an email not yet in the store succeeds: the
response is HTTP 200 with status success, data {jwt_token, token_type},
and a cookie named jwt_token with max-age 3600; the new store is the old
store with exactly one appended row holding a fresh id, the request's
email and username, and the hashed password. -/
theorem register_fresh_email_success (store : Store) (user : UserCreate)
    (now : Nat) (h : get_user_by_email store user.email = none) :
    register none store user now =
      (success_token (create_access_token user.email now), create_user store user) ∧
    (register none store user now).1.status_code = 200 ∧
    (register none store user now).1.status = "success" ∧
    (register none store user now).1.cookie =
      CookieAction.set "jwt_token" (create_access_token user.email now) 3600 ∧
    (register none store user now).2 =
      store ++ [{ id := fresh_id store, email := user.email,
                  username := user.username,
                  password_hash := hash_password user.password }] ∧
    (register none store user now).2.length = store.length + 1 := by
  have hreg : register none store user now =
      (success_token (create_access_token user.email now), create_user store user) := by
    unfold register
    rw [h]
  refine ⟨hreg, ?_, ?_, ?_, ?_, ?_⟩ <;> rw [hreg]
  · rfl
  · rfl
  · rfl
  · rfl
  · simp [create_user]

/-- C6 witness: registering a fresh email against the demo store inserts
one row and returns the 200 success envelope with the cookie. -/
theorem register_fresh_email_success_witness :
    register none demo_store { email := "b@x.com", password := "p2", username := "u2" } 0 =
      (success_token (create_access_token "b@x.com" 0),
       create_user demo_store { email := "b@x.com", password := "p2", username := "u2" }) ∧
    (register none demo_store { email := "b@x.com", password := "p2", username := "u2" } 0).1.status_code = 200 ∧
    (register none demo_store { email := "b@x.com", password := "p2", username := "u2" } 0).1.status = "success" ∧
    (register none demo_store { email := "b@x.com", password := "p2", username := "u2" } 0).1.cookie =
      CookieAction.set "jwt_token" (create_access_token "b@x.com" 0) 3600 ∧
    (register none demo_store { email := "b@x.com", password := "p2", username := "u2" } 0).2 =
      demo_store ++ [{ id := fresh_id demo_store, email := "b@x.com",
                       username := "u2", password_hash := hash_password "p2" }] ∧
    (register none demo_store { email := "b@x.com", password := "p2", username := "u2" } 0).2.length =
      demo_store.length + 1 :=
  register_fresh_email_success demo_store
    { email := "b@x.com", password := "p2", username := "u2" } 0 (by decide)

/-- C7: logout always returns the success envelope (HTTP 200, empty data
and detail) and its only effect is the deletion of the jwt_token cookie;
its body invokes no store, hash or token operation — it takes no session
argument in the embedding — so no server-side state is read or modified
and the server-error branch of the source cannot be reached. -/
theorem logout_always_success_only_cookie_delete :
    logout.status_code = 200 ∧ logout.status = "success" ∧
    logout.data = RespData.null ∧ logout.detail = none ∧
    logout.cookie = CookieAction.delete "jwt_token" :=
  ⟨rfl, rfl, rfl, rfl, rfl⟩

/-- C2: the token that register, login and edit_profile issue for an email
is create_access_token email now; presenting it to /test-auth while it is
unexpired, against any store in which that email resolves to user u,
yields the success envelope whose data is exactly the stored id, email
and username of u: token issue then token check round-trips to the stored
identity. -/
theorem issued_token_roundtrips_to_stored_identity (store : Store)
    (email : String) (u : User) (now now2 : Nat)
    (hfind : get_user_by_email store email = some u)
    (hexp : now2 < now + 3600) :
    test_auth (get_current_user store (some (create_access_token email now)) now2) =
      { status_code := 200, status := "success",
        data := RespData.user_data u.id u.email u.username, detail := none,
        cookie := CookieAction.keep } := by
  have hvalid : token_valid (create_access_token email now) now2 = true := by
    simp [token_valid, create_access_token, hexp]
  simp [get_current_user, create_access_token] at hvalid ⊢
  rw [hvalid]
  simp [hfind, test_auth, user_to_read]

/-- C2 witness: a token issued at time 0 for a@x.com, checked at time 5
against the demo store, resolves to the stored id 1, a@x.com, u1. -/
theorem issued_token_roundtrips_to_stored_identity_witness :
    test_auth (get_current_user demo_store (some (create_access_token "a@x.com" 0)) 5) =
      { status_code := 200, status := "success",
        data := RespData.user_data 1 "a@x.com" "u1", detail := none,
        cookie := CookieAction.keep } :=
  issued_token_roundtrips_to_stored_identity demo_store "a@x.com" demo_user 0 5
    (by decide) (by decide)

/-- C5: edit_profile applies its checks in order: with no resolved user the
result is 401 Unauthorized and the untouched store for every confirmation
password (the password is never consulted); with a resolved user and a
wrong confirmation password the result is 400; only when both checks pass
is the username update performed and the success token returned. -/
theorem edit_profile_validation_order (store : Store) (now : Nat) :
    (∀ nd : UserEdit, edit_profile none store nd none now =
      (http_error 401 "Unauthorized", store)) ∧
    (∀ (nd : UserEdit) (u : UserRead),
      verify_password store u.email nd.password = false →
      edit_profile none store nd (some u) now =
        (http_error 400 "Password is incorrect", store)) ∧
    (∀ (nd : UserEdit) (u : UserRead),
      verify_password store u.email nd.password = true →
      edit_profile none store nd (some u) now =
        (success_token (create_access_token u.email now), edit_user store u nd)) := by
  refine ⟨fun nd => rfl, fun nd u h => by simp [edit_profile, h],
    fun nd u h => by simp [edit_profile, h]⟩

/-- C5 witness: on the demo store, no resolved user gives 401 even with the
correct password, a wrong password gives 400, and the correct password
updates the username. -/
theorem edit_profile_validation_order_witness :
    edit_profile none demo_store { password := "p1", username := "u2" } none 0 =
      (http_error 401 "Unauthorized", demo_store) ∧
    edit_profile none demo_store { password := "nope2", username := "u2" }
        (some demo_read) 0 =
      (http_error 400 "Password is incorrect", demo_store) ∧
    edit_profile none demo_store { password := "p1", username := "u2" }
        (some demo_read) 0 =
      (success_token (create_access_token "a@x.com" 0),
       edit_user demo_store demo_read { password := "p1", username := "u2" }) :=
  ⟨(edit_profile_validation_order demo_store 0).1 { password := "p1", username := "u2" },
   (edit_profile_validation_order demo_store 0).2.1
     { password := "nope2", username := "u2" } demo_read (by decide),
   (edit_profile_validation_order demo_store 0).2.2
     { password := "p1", username := "u2" } demo_read (by decide)⟩

/-- C8: when get_current_user resolves a request's token to a user u,
/test-auth returns the success envelope whose data is exactly
{u.id, u.email, u.username}; when it resolves to no user the result is
401 Unauthorized; an absent token and a token failing signature-or-expiry
verification both resolve to no user. -/
theorem test_auth_valid_and_invalid (store : Store) (tok : Option Token)
    (now : Nat) :
    (∀ u : UserRead, get_current_user store tok now = some u →
      test_auth (get_current_user store tok now) =
        { status_code := 200, status := "success",
          data := RespData.user_data u.id u.email u.username, detail := none,
          cookie := CookieAction.keep }) ∧
    (get_current_user store tok now = none →
      test_auth (get_current_user store tok now) =
        http_error 401 "Unauthorized") ∧
    get_current_user store none now = none ∧
    (∀ t : Token, token_valid t now = false →
      get_current_user store (some t) now = none) := by
  refine ⟨fun u h => by rw [h]; rfl, fun h => by rw [h]; rfl, rfl,
    fun t h => by simp [get_current_user, h]⟩

/-- C8 witness: a fresh valid token yields the stored demo identity, the
absent token yields 401, and an expired token resolves to no user. -/
theorem test_auth_valid_and_invalid_witness :
    test_auth (get_current_user demo_store (some (create_access_token "a@x.com" 0)) 5) =
      { status_code := 200, status := "success",
        data := RespData.user_data 1 "a@x.com" "u1", detail := none,
        cookie := CookieAction.keep } ∧
    test_auth (get_current_user demo_store none 5) = http_error 401 "Unauthorized" ∧
    get_current_user demo_store (some (create_access_token "a@x.com" 0)) 9000 = none :=
  ⟨(test_auth_valid_and_invalid demo_store (some (create_access_token "a@x.com" 0)) 5).1
      demo_read (by decide),
   (test_auth_valid_and_invalid demo_store none 5).2.1 rfl,
   (test_auth_valid_and_invalid demo_store (some (create_access_token "a@x.com" 0)) 9000).2.2.2
      (create_access_token "a@x.com" 0) (by decide)⟩

/-- C9: every response any of the five handlers can produce — for every
fault injection, store, request body, resolved user and clock — satisfies
the envelope contract: status is success or error; success is HTTP 200
with empty detail; a 401/409/400 domain error has empty data and a
human-readable detail; a 500 carries the stringified error in data and
detail Server error. -/
theorem handlers_envelope_shape (fault : Option String) (store : Store)
    (uc : UserCreate) (ul : UserLogin) (ue : UserEdit) (ur : Option UserRead)
    (tok : Option Token) (now : Nat) :
    envelope_ok (register fault store uc now).1 ∧
    envelope_ok (login fault store ul now) ∧
    envelope_ok logout ∧
    envelope_ok (edit_profile fault store ue ur now).1 ∧
    envelope_ok (test_auth (get_current_user store tok now)) := by
  refine ⟨?_, ?_, ?_, ?_, ?_⟩
  · rcases register_shape fault store uc now with ⟨msg, h⟩ | h | h <;> rw [h]
    · exact envelope_ok_server_error msg
    · exact envelope_ok_http_error 409 _ (Or.inr (Or.inl rfl))
    · exact envelope_ok_success_token _
  · rcases login_shape fault store ul now with ⟨msg, h⟩ | h | h <;> rw [h]
    · exact envelope_ok_server_error msg
    · exact envelope_ok_http_error 401 _ (Or.inl rfl)
    · exact envelope_ok_success_token _
  · exact ⟨Or.inl rfl, fun _ => ⟨rfl, rfl⟩, fun h => by simp [logout] at h,
      fun h => by simp [logout] at h⟩
  · rcases edit_profile_shape fault store ue ur now with
      ⟨msg, h⟩ | h | h | ⟨u, _, h⟩ <;> rw [h]
    · exact envelope_ok_server_error msg
    · exact envelope_ok_http_error 401 _ (Or.inl rfl)
    · exact envelope_ok_http_error 400 _ (Or.inr (Or.inr rfl))
    · exact envelope_ok_success_token _
  · cases get_current_user store tok now with
    | none => exact envelope_ok_http_error 401 _ (Or.inl rfl)
    | some u =>
      exact ⟨Or.inl rfl, fun _ => ⟨rfl, rfl⟩,
        fun h => by rcases h with h | h | h <;> simp [test_auth] at h,
        fun h => by simp [test_auth] at h⟩

/-- C9 witness: the envelope contract at a concrete instantiation. -/
theorem handlers_envelope_shape_witness :
    envelope_ok (register none demo_store
      { email := "b@x.com", password := "p2", username := "u2" } 0).1 ∧
    envelope_ok (login none demo_store { email := "a@x.com", password := "p1" } 0) ∧
    envelope_ok logout ∧
    envelope_ok (edit_profile none demo_store
      { password := "p1", username := "u2" } (some demo_read) 0).1 ∧
    envelope_ok (test_auth (get_current_user demo_store none 0)) :=
  handlers_envelope_shape none demo_store
    { email := "b@x.com", password := "p2", username := "u2" }
    { email := "a@x.com", password := "p1" }
    { password := "p1", username := "u2" } (some demo_read) none 0

/-- C10: whenever register, login or edit_profile produces a success
response, its data is the token constructor whose token_type field is the
constant "jwt_token" — the same string as the data field's token key and
the cookie's name — and the attached cookie is set under the key
"jwt_token". -/
theorem success_token_type_jwt_token (fault : Option String) (store : Store)
    (uc : UserCreate) (ul : UserLogin) (ue : UserEdit) (ur : Option UserRead)
    (now : Nat) :
    ((register fault store uc now).1.status = "success" →
      ∃ t, (register fault store uc now).1.data = RespData.token t "jwt_token" ∧
        (register fault store uc now).1.cookie = CookieAction.set "jwt_token" t 3600) ∧
    ((login fault store ul now).status = "success" →
      ∃ t, (login fault store ul now).data = RespData.token t "jwt_token" ∧
        (login fault store ul now).cookie = CookieAction.set "jwt_token" t 3600) ∧
    ((edit_profile fault store ue ur now).1.status = "success" →
      ∃ t, (edit_profile fault store ue ur now).1.data = RespData.token t "jwt_token" ∧
        (edit_profile fault store ue ur now).1.cookie = CookieAction.set "jwt_token" t 3600) := by
  refine ⟨?_, ?_, ?_⟩
  · rcases register_shape fault store uc now with ⟨msg, h⟩ | h | h <;> rw [h]
    · intro hs; exact absurd hs (by simp [server_error])
    · intro hs; exact absurd hs (by simp [http_error])
    · intro _; exact ⟨create_access_token uc.email now, rfl, rfl⟩
  · rcases login_shape fault store ul now with ⟨msg, h⟩ | h | h <;> rw [h]
    · intro hs; exact absurd hs (by simp [server_error])
    · intro hs; exact absurd hs (by simp [http_error])
    · intro _; exact ⟨create_access_token ul.email now, rfl, rfl⟩
  · rcases edit_profile_shape fault store ue ur now with
      ⟨msg, h⟩ | h | h | ⟨u, _, h⟩ <;> rw [h]
    · intro hs; exact absurd hs (by simp [server_error])
    · intro hs; exact absurd hs (by simp [http_error])
    · intro hs; exact absurd hs (by simp [http_error])
    · intro _; exact ⟨create_access_token u.email now, rfl, rfl⟩

/-- C10 witness: the three success responses at concrete inputs all carry
token_type "jwt_token" and the jwt_token cookie. -/
theorem success_token_type_jwt_token_witness :
    (∃ t, (register none demo_store
        { email := "b@x.com", password := "p2", username := "u2" } 0).1.data =
          RespData.token t "jwt_token" ∧
      (register none demo_store
        { email := "b@x.com", password := "p2", username := "u2" } 0).1.cookie =
          CookieAction.set "jwt_token" t 3600) ∧
    (∃ t, (login none demo_store { email := "a@x.com", password := "p1" } 0).data =
          RespData.token t "jwt_token" ∧
      (login none demo_store { email := "a@x.com", password := "p1" } 0).cookie =
          CookieAction.set "jwt_token" t 3600) ∧
    (∃ t, (edit_profile none demo_store { password := "p1", username := "u2" }
          (some demo_read) 0).1.data = RespData.token t "jwt_token" ∧
      (edit_profile none demo_store { password := "p1", username := "u2" }
          (some demo_read) 0).1.cookie = CookieAction.set "jwt_token" t 3600) :=
  ⟨(success_token_type_jwt_token none demo_store
      { email := "b@x.com", password := "p2", username := "u2" }
      { email := "a@x.com", password := "p1" }
      { password := "p1", username := "u2" } (some demo_read) 0).1 (by decide),
   (success_token_type_jwt_token none demo_store
      { email := "b@x.com", password := "p2", username := "u2" }
      { email := "a@x.com", password := "p1" }
      { password := "p1", username := "u2" } (some demo_read) 0).2.1 (by decide),
   (success_token_type_jwt_token none demo_store
      { email := "b@x.com", password := "p2", username := "u2" }
      { email := "a@x.com", password := "p1" }
      { password := "p1", username := "u2" } (some demo_read) 0).2.2 (by decide)⟩

end AuthFastapi
